import Mathlib

/-!
Shallow embedding of `warmup/vm_instruments.py` (warmup_stats repository).

The module parses instrumentation data from two VMs:
* `HotSpotInstrumentParser` — cumulative-counter differencing (Strategy A);
* `PyPyInstrumentParser` — event-tree net-time aggregation (Strategy B);
plus `merge_instr_data`, the `ChartData` record and the constructors.

Python numbers are modelled as rationals (`ℚ`); Python runtime errors
(IndexError, KeyError, TypeError, AssertionError) are modelled with an
explicit error type and `Except`; text printed to stdout (the warning in
`_parse_node`) is threaded through return values as a `List String`.
-/

namespace VMInstruments

/-- Python runtime errors that the embedded code can raise. -/
inductive PyErr where
  | indexError
  | keyError
  | typeError
  | assertionError
deriving DecidableEq, Repr

/-- `ChartData` (vm_instruments.py lines 15-26): title, numeric series,
legend text.  Pure data carrier. -/
structure ChartData where
  title : String
  data : List ℚ
  legend_text : String
deriving DecidableEq, Repr

/-! ## merge_instr_data (lines 6-12) -/

/-- One input instr_data dictionary: it must carry a `raw_vm_events` key.
`α` is the (opaque to the merger) type of one per-iteration raw record. -/
structure InstrFile (α : Type) where
  raw_vm_events : List α
deriving DecidableEq, Repr

/-- The merged dictionary: its `raw_vm_events` is a list of the inputs'
`raw_vm_events` lists (one inner list per input file). -/
structure MergedInstrData (α : Type) where
  raw_vm_events : List (List α)
deriving DecidableEq, Repr

/-- `merge_instr_data(file_data)` (lines 6-12): starts from
`{'raw_vm_events': []}` and appends each input dict's `raw_vm_events`. -/
def merge_instr_data {α : Type} (file_data : List (InstrFile α)) :
    MergedInstrData α :=
  ⟨file_data.foldl (fun acc dict => acc ++ [dict.raw_vm_events]) []⟩

/-! ## HotSpotInstrumentParser (lines 44-92) -/

/-- One collectorInfo entry:
`[collectorName, PoolNames, cumuCollectTime, cumuCollectCount]`
(per the docstring, lines 49-50).  `cumuCollectCount` is the LAST element,
so the Python access `collector[-1]` reads `cumuCollectCount`. -/
structure Collector where
  collectorName : String
  poolNames : List String
  cumuCollectTime : ℚ
  cumuCollectCount : ℚ
deriving DecidableEq, Repr

/-- One per-iteration HotSpot record `[iterNum, cumuCompTime, collectorInfo]`
(docstring line 47).  The code reads index 1 (`cumuCompTime`) and
index 2 (`collectorInfo`). -/
structure HSEvent where
  iterNum : ℚ
  cumuCompTime : ℚ
  collectorInfo : List Collector
deriving DecidableEq, Repr

/-- The instr_data dictionary consumed by the HotSpot parser: only the
`raw_vm_events` key is read (line 67). -/
structure HSInstrData where
  raw_vm_events : List HSEvent
deriving DecidableEq, Repr

/-- Inner loop of lines 73-75: `gc_iteration = 0` then
`gc_iteration += collector[-1]` for each collector.  `collector[-1]` is the
last field of the 4-element collector record, i.e. `cumuCollectCount`. -/
def gcIterationSum (cs : List Collector) : ℚ :=
  cs.foldl (fun acc collector => acc + collector.cumuCollectCount) 0

/-- `jit_cumulative_times` (line 69): field index 1 of every record. -/
def jitCumulativeTimes (d : HSInstrData) : List ℚ :=
  d.raw_vm_events.map HSEvent.cumuCompTime

/-- `gc_cumulative_times` (lines 70-76): per-iteration sum over the
collectors of `collector[-1]`. -/
def gcCumulativeTimes (d : HSInstrData) : List ℚ :=
  d.raw_vm_events.map (fun ev => gcIterationSum ev.collectorInfo)

/-- Loop of lines 83-87 for one series: given `last = series[i-1]`,
append `(series[i] - last) / 1000.0` for each remaining element. -/
def diffLoop (last : ℚ) : List ℚ → List ℚ
  | [] => []
  | x :: xs => (x - last) / 1000 :: diffLoop x xs

/-- Lines 79-87 for one cumulative series `c0 :: rest`:
`[c0 / 1000.0]` followed by the first differences divided by 1000. -/
def secsSeries (c0 : ℚ) (rest : List ℚ) : List ℚ :=
  c0 / 1000 :: diffLoop c0 rest

/-- `HotSpotInstrumentParser.parse_instr_data` (lines 64-92) for a present
(non-None) instr_data.  When `raw_vm_events` is empty, line 79
(`jit_cumulative_times[0]`) raises IndexError. -/
def hsParse (d : HSInstrData) : Except PyErr (List ChartData) :=
  match jitCumulativeTimes d, gcCumulativeTimes d with
  | j0 :: js, g0 :: gs =>
      .ok [ChartData.mk "GC (secs)" (secsSeries g0 gs) "GC events",
           ChartData.mk "JIT (secs)" (secsSeries j0 js) "JIT compilation"]
  | _, _ => .error .indexError

/-- The `HotSpotInstrumentParser` object state after construction. -/
structure HotSpotInstrumentParser where
  vm : String
  instr_data : Option HSInstrData
  chart_data : Option (List ChartData)
deriving DecidableEq, Repr

/-- `HotSpotInstrumentParser.__init__` (lines 59-62): the base constructor
sets `chart_data = None`; `instr_data if instr_data else None` maps a
falsy (absent) argument to `None`; then `parse_instr_data` runs eagerly
(it may raise; on `None` data it returns early leaving `chart_data`
as `None`). -/
def hotSpotNew (instr_data : Option HSInstrData) :
    Except PyErr HotSpotInstrumentParser :=
  match instr_data with
  | none => .ok ⟨"Hotspot", none, none⟩
  | some d =>
      match hsParse d with
      | .ok cd => .ok ⟨"Hotspot", some d, some cd⟩
      | .error e => .error e

/-! ## PyPyInstrumentParser (lines 95-135) -/

/-- One PyPy event-tree node `(event_type, start_time, stop_time, children)`
(line 108 / line 122).  Start and stop times may be the Python `None`
sentinel (the per-iteration top node has both `None`). -/
inductive Node where
  | mk (eventType : String) (startTime stopTime : Option ℚ) (children : List Node)

/-- Event type of a node. -/
def Node.eventType : Node → String
  | .mk et _ _ _ => et

/-- Start time of a node. -/
def Node.startTime : Node → Option ℚ
  | .mk _ s _ _ => s

/-- Stop time of a node. -/
def Node.stopTime : Node → Option ℚ
  | .mk _ _ p _ => p

/-- Children of a node. -/
def Node.children : Node → List Node
  | .mk _ _ _ cs => cs

/-- The per-iteration accumulator dictionary passed to `_parse_node`
(`info`).  In `parse_instr_data` it is created as `{'gc': 0}` — it has a
`'gc'` key but NO `'jit'` key, which we model with `Option` fields
(`none` = key absent, looking it up raises KeyError). -/
structure Info where
  gc : Option ℚ
  jit : Option ℚ
deriving DecidableEq, Repr

/-- The warning printed at line 134 for an unrecognized event type. -/
def warnMsg (eventType : String) : String :=
  "WARNING: unknown event in PyPy instr data: " ++ eventType

/-- Python's `s.startswith(pre)`: `pre` is a prefix of `s`. -/
def strStartsWith (s pre : String) : Bool :=
  pre.data.isPrefixOf s.data

mutual

/-- `PyPyInstrumentParser._parse_node(node, info)` (lines 119-135).
Returns `(net_time, updated info dict, printed warnings)`:
1. `assert event_type != 'root'`;
2. sum the children's returned net times into `child_time`;
3. `gross_time = stop_time - start_time` (Python raises TypeError when a
   time is `None`), `net_time = gross_time - child_time`;
4. a `gc-` prefix does `info['gc'] += net_time`, a `jit-` prefix does
   `info['jit'] += net_time` (KeyError when the key is absent), anything
   else prints a warning;
5. `net_time` is returned to the caller. -/
def parseNode : Node → Info → Except PyErr (ℚ × Info × List String)
  | .mk et s p cs, info =>
    if et = "root" then .error .assertionError
    else
      match parseChildren cs info with
      | .error e => .error e
      | .ok (childTime, info1, w1) =>
        match s, p with
        | some startT, some stopT =>
          let grossTime := stopT - startT
          let netTime := grossTime - childTime
          if strStartsWith et "gc-" then
            match info1.gc with
            | some g => .ok (netTime, ⟨some (g + netTime), info1.jit⟩, w1)
            | none => .error .keyError
          else if strStartsWith et "jit-" then
            match info1.jit with
            | some j => .ok (netTime, ⟨info1.gc, some (j + netTime)⟩, w1)
            | none => .error .keyError
          else
            .ok (netTime, info1, w1 ++ [warnMsg et])
        | _, _ => .error .typeError

/-- The `for child in children: child_time += self._parse_node(child, info)`
loop (lines 124-126): threads the mutated `info` dict through the children
in order and sums their returned net times. -/
def parseChildren : List Node → Info → Except PyErr (ℚ × Info × List String)
  | [], info => .ok (0, info, [])
  | c :: cs, info =>
    match parseNode c info with
    | .error e => .error e
    | .ok (t1, i1, w1) =>
      match parseChildren cs i1 with
      | .error e => .error e
      | .ok (t2, i2, w2) => .ok (t1 + t2, i2, w1 ++ w2)

end

/-- The instr_data dictionary consumed by the PyPy parser: the code reads
`raw_vm_events` (line 107) and `jit_times` (line 114). -/
structure PyPyInstrData where
  raw_vm_events : List Node
  jit_times : List ℚ

/-- The per-top-node loop of `PyPyInstrumentParser.parse_instr_data`
(lines 107-113): for each top node assert `start_time == stop_time == None`
(chained comparison: both must be `None`), create `iteration = ⟨'gc': 0⟩`,
run `_parse_node` on each child (return value discarded), then append
`iteration['gc']` (KeyError if the key vanished, which cannot happen). -/
def parseTopNodes : List Node → Except PyErr (List ℚ × List String)
  | [] => .ok ([], [])
  | .mk _et s p cs :: rest =>
    match s, p with
    | none, none =>
      match parseChildren cs ⟨some 0, none⟩ with
      | .error e => .error e
      | .ok (_childTime, info1, w1) =>
        match info1.gc with
        | none => .error .keyError
        | some g =>
          match parseTopNodes rest with
          | .error e => .error e
          | .ok (gcs, w2) => .ok (g :: gcs, w1 ++ w2)
    | _, _ => .error .assertionError

/-- `PyPyInstrumentParser.parse_instr_data` (lines 103-117) for a present
(non-None) instr_data: collect the per-iteration GC sums, take the JIT
series verbatim from `instr_data['jit_times']`, and build the two
`ChartData` entries. -/
def pypyParse (d : PyPyInstrData) :
    Except PyErr (List ChartData × List String) :=
  match parseTopNodes d.raw_vm_events with
  | .error e => .error e
  | .ok (gcs, w) =>
    .ok ([ChartData.mk "GC" gcs "GC events",
          ChartData.mk "JIT" d.jit_times "JIT tracing"], w)

/-- The `PyPyInstrumentParser` object state after construction. -/
structure PyPyInstrumentParser where
  vm : String
  instr_data : Option PyPyInstrData
  chart_data : Option (List ChartData)

/-- `PyPyInstrumentParser.__init__` (lines 98-101): sets `chart_data = None`
via the base constructor, maps a falsy instr_data argument to `None`, and
eagerly parses.  The second component is the text printed to stdout. -/
def pypyNew (instr_data : Option PyPyInstrData) :
    Except PyErr (PyPyInstrumentParser × List String) :=
  match instr_data with
  | none => .ok (⟨"PyPy", none, none⟩, [])
  | some d =>
      match pypyParse d with
      | .ok (cd, w) => .ok (⟨"PyPy", some d, some cd⟩, w)
      | .error e => .error e

/-! ## Pure mirrors of the `_parse_node` arithmetic

`parseNode` threads a dictionary and can raise; the quantities it computes
(`gross_time`, `net_time`, the total added to the `gc` accumulator) are
pure functions of the tree, defined below and provably equal to what
`parseNode` computes whenever it succeeds.  `Option.getD 0` stands for a
time that is present whenever `parseNode` did not raise TypeError. -/

/-- `gross_time = stop_time - start_time` (line 127). -/
def grossTimeP (t : Node) : ℚ :=
  t.stopTime.getD 0 - t.startTime.getD 0

mutual

/-- `net_time` of a node (line 128): gross time minus the sum of the
children's net times (NOT their gross times). -/
def netTimeP : Node → ℚ
  | .mk et s p cs => grossTimeP (.mk et s p cs) - netSumP cs

/-- `child_time` (lines 124-126): the sum of the children's net times. -/
def netSumP : List Node → ℚ
  | [] => 0
  | c :: cs => netTimeP c + netSumP cs

end

mutual

/-- Sum of the net times of every node in the subtree rooted at `t`. -/
def subtreeNetSum : Node → ℚ
  | .mk et s p cs => netTimeP (.mk et s p cs) + subtreeNetSumL cs

/-- Sum of the net times of every node in a forest. -/
def subtreeNetSumL : List Node → ℚ
  | [] => 0
  | c :: cs => subtreeNetSum c + subtreeNetSumL cs

end

mutual

/-- Total net time classified into the `gc` accumulator (line 130) over
the subtree rooted at `t`. -/
def gcSumP : Node → ℚ
  | .mk et s p cs =>
    (if strStartsWith et "gc-" then netTimeP (.mk et s p cs) else 0) + gcSumL cs

/-- Total `gc-`-classified net time over a forest. -/
def gcSumL : List Node → ℚ
  | [] => 0
  | c :: cs => gcSumP c + gcSumL cs

end

mutual

/-- Every node in the subtree rooted at `t` has a non-negative net time. -/
def allNetNonneg : Node → Bool
  | .mk et s p cs => (decide (0 ≤ netTimeP (.mk et s p cs))) && allNetNonnegL cs

/-- Every node in a forest has a non-negative net time (subtrees included). -/
def allNetNonnegL : List Node → Bool
  | [] => true
  | c :: cs => allNetNonneg c && allNetNonnegL cs

end

/-! ## Auxiliary definitions for stating the properties -/

/-- Running prefix sums starting from `acc`: element `i` of the result is
`acc` plus the sum of the first `i+1` input elements. -/
def prefixSumsFrom (acc : ℚ) : List ℚ → List ℚ
  | [] => []
  | x :: xs => (acc + x) :: prefixSumsFrom (acc + x) xs

/-- Prefix sums of a list (cumulative series of a per-interval series). -/
def prefixSums (xs : List ℚ) : List ℚ := prefixSumsFrom 0 xs

/-- The worked scenario input from the HotSpot docstring (line 56), one
more iteration appended: `[[0,17,[['PS Scavenge',[...],0,0]]],
[1,42,[['PS Scavenge',[...],5,1]]]]`.  At iteration 1 the collector has
`cumuCollectTime = 5` ms and `cumuCollectCount = 1`. -/
def scenarioInput : HSInstrData :=
  ⟨[⟨0, 17, [⟨"PS Scavenge", ["PS Eden Space", "PS Survivor Space"], 0, 0⟩]⟩,
    ⟨1, 42, [⟨"PS Scavenge", ["PS Eden Space", "PS Survivor Space"], 5, 1⟩]⟩]⟩

/-- A PyPy instr_data whose event tree contains one `jit-`-prefixed node. -/
def jitEventInput : PyPyInstrData :=
  ⟨[.mk "root" none none [.mk "jit-tracing" (some 0) (some 5) []]], [5]⟩

/-- A three-node chain of `gc-` events: outer spans 0..10, its child spans
0..6, the grandchild spans 0..4.  Net times are 4, 6-4 = 2 and 10-2 = 8 —
all non-negative — yet their sum 14 exceeds the outer gross time 10. -/
def gcChain : Node :=
  .mk "gc-outer" (some 0) (some 10)
    [.mk "gc-mid" (some 0) (some 6)
      [.mk "gc-leaf" (some 0) (some 4) []]]

/-! ## Helper lemmas -/

/-- Prefix-summing (from `last`) the milliseconds-scaled first differences
of a cumulative series recovers the series. -/
theorem diffLoop_roundtrip : ∀ (xs : List ℚ) (last : ℚ),
    prefixSumsFrom last ((diffLoop last xs).map (fun q => q * 1000)) = xs
  | [], last => by simp [diffLoop, prefixSumsFrom]
  | x :: xs, last => by
      have h1000 : (1000 : ℚ) ≠ 0 := by norm_num
      simp only [diffLoop, List.map_cons, prefixSumsFrom, div_mul_cancel₀ _ h1000]
      have hx : last + (x - last) = x := by ring
      rw [hx, diffLoop_roundtrip xs x]

/-- Prefix-summing the milliseconds-scaled output of the lines 79-87
conversion recovers the cumulative input series. -/
theorem secsSeries_roundtrip (c0 : ℚ) (rest : List ℚ) :
    prefixSums ((secsSeries c0 rest).map (fun q => q * 1000)) = c0 :: rest := by
  have h1000 : (1000 : ℚ) ≠ 0 := by norm_num
  simp only [secsSeries, prefixSums, List.map_cons, prefixSumsFrom,
    div_mul_cancel₀ _ h1000, zero_add]
  rw [diffLoop_roundtrip rest c0]

mutual

/-- When `_parse_node` succeeds, the returned value is the node's net time
and the `gc` accumulator has grown by exactly the subtree's
`gc-`-classified net-time total. -/
theorem parseNode_ok : ∀ (t : Node) (info : Info) (net : ℚ) (info' : Info) (w : List String),
    parseNode t info = .ok (net, info', w) →
    net = netTimeP t ∧ ∀ g, info.gc = some g → info'.gc = some (g + gcSumP t)
  | .mk et none none cs, info, net, info', w, h => by
      rw [parseNode] at h
      split at h
      · simp at h
      · split at h
        · simp at h
        · simp at h
  | .mk et none (some x) cs, info, net, info', w, h => by
      rw [parseNode] at h
      split at h
      · simp at h
      · split at h
        · simp at h
        · simp at h
  | .mk et (some x) none cs, info, net, info', w, h => by
      rw [parseNode] at h
      split at h
      · simp at h
      · split at h
        · simp at h
        · simp at h
  | .mk et (some startT) (some stopT) cs, info, net, info', w, h => by
      rw [parseNode] at h
      split at h
      · simp at h
      · split at h
        · simp at h
        · rename_i childTime info1 w1 heq
          have hcs := parseChildren_ok cs info childTime info1 w1 heq
          have hnetP : netTimeP (Node.mk et (some startT) (some stopT) cs) =
              stopT - startT - netSumP cs := by
            simp [netTimeP, grossTimeP, Node.stopTime, Node.startTime]
          simp only [] at h
          by_cases hgcp : strStartsWith et "gc-" = true
          · rw [if_pos hgcp] at h
            have hgcSum : gcSumP (Node.mk et (some startT) (some stopT) cs) =
                netTimeP (Node.mk et (some startT) (some stopT) cs) + gcSumL cs := by
              rw [gcSumP, if_pos hgcp]
            split at h
            · rename_i g2 hg2
              simp only [Except.ok.injEq, Prod.mk.injEq] at h
              obtain ⟨hnet, hinfo, hw⟩ := h
              refine ⟨by rw [← hnet, hnetP, hcs.1], ?_⟩
              intro g hg
              have h1 := hcs.2 g hg
              rw [h1] at hg2
              have hg2' : g2 = g + gcSumL cs := by
                injection hg2 with hv
                exact hv.symm
              subst hg2'
              rw [← hinfo]
              simp only [hgcSum, hnetP, hcs.1]
              exact congrArg some (by ring)
            · simp at h
          · rw [if_neg hgcp] at h
            have hgcSum : gcSumP (Node.mk et (some startT) (some stopT) cs) = gcSumL cs := by
              rw [gcSumP, if_neg hgcp, zero_add]
            by_cases hjitp : strStartsWith et "jit-" = true
            · rw [if_pos hjitp] at h
              split at h
              · rename_i j2 hj2
                simp only [Except.ok.injEq, Prod.mk.injEq] at h
                obtain ⟨hnet, hinfo, hw⟩ := h
                refine ⟨by rw [← hnet, hnetP, hcs.1], ?_⟩
                intro g hg
                rw [← hinfo]
                simp only [hgcSum]
                exact hcs.2 g hg
              · simp at h
            · rw [if_neg hjitp] at h
              simp only [Except.ok.injEq, Prod.mk.injEq] at h
              obtain ⟨hnet, hinfo, hw⟩ := h
              refine ⟨by rw [← hnet, hnetP, hcs.1], ?_⟩
              intro g hg
              rw [← hinfo]
              simp only [hgcSum]
              exact hcs.2 g hg

/-- When the child loop succeeds, the accumulated `child_time` is the sum
of the children's net times and the `gc` accumulator has grown by the
forest's `gc-`-classified net-time total. -/
theorem parseChildren_ok : ∀ (cs : List Node) (info : Info) (ct : ℚ) (info' : Info) (w : List String),
    parseChildren cs info = .ok (ct, info', w) →
    ct = netSumP cs ∧ ∀ g, info.gc = some g → info'.gc = some (g + gcSumL cs)
  | [], info, ct, info', w, h => by
      simp only [parseChildren, Except.ok.injEq, Prod.mk.injEq] at h
      obtain ⟨h1, h2, h3⟩ := h
      refine ⟨by simp [netSumP, ← h1], ?_⟩
      intro g hg
      rw [← h2]
      simp [gcSumL, hg]
  | c :: cs, info, ct, info', w, h => by
      rw [parseChildren] at h
      split at h
      · simp at h
      · rename_i t1 i1 w1 heq1
        split at h
        · simp at h
        · rename_i t2 i2 w2 heq2
          simp only [Except.ok.injEq, Prod.mk.injEq] at h
          obtain ⟨h1, h2, h3⟩ := h
          have hc := parseNode_ok c info t1 i1 w1 heq1
          have hcs := parseChildren_ok cs i1 t2 i2 w2 heq2
          constructor
          · rw [← h1, hc.1, hcs.1, netSumP]
          · intro g hg
            have ha := hc.2 g hg
            have hb := hcs.2 (g + gcSumP c) ha
            rw [← h2, hb, gcSumL]
            exact congrArg some (by ring)

end

/-- In a forest of leaves, the subtree net-time total is just the sum of
the (top-level) net times. -/
theorem subtreeNetSumL_eq_netSumP : ∀ (cs : List Node), (∀ c ∈ cs, c.children = []) →
    subtreeNetSumL cs = netSumP cs
  | [], _ => by rw [subtreeNetSumL, netSumP]
  | c :: cs, h => by
      obtain ⟨et, s, p, ccs⟩ := c
      have hc : ccs = [] := h _ (List.mem_cons_self _ _)
      subst hc
      rw [subtreeNetSumL, netSumP, subtreeNetSum, subtreeNetSumL, add_zero,
        subtreeNetSumL_eq_netSumP cs (fun c hc => h c (List.mem_cons_of_mem _ hc))]

/-- Depth-one telescoping: when every child of a node is a leaf, the sum
of the net times over the node's subtree equals the node's gross time. -/
theorem subtree_depth1 (et : String) (s p : Option ℚ) (cs : List Node)
    (hleaf : ∀ c ∈ cs, c.children = []) :
    subtreeNetSum (Node.mk et s p cs) = grossTimeP (Node.mk et s p cs) := by
  rw [subtreeNetSum, subtreeNetSumL_eq_netSumP cs hleaf, netTimeP]
  ring

mutual

/-- When all net times in a subtree are non-negative, the `gc-`-classified
total is at most the subtree net-time total. -/
theorem gcSumP_le : ∀ (t : Node), allNetNonneg t = true → gcSumP t ≤ subtreeNetSum t
  | .mk et s p cs, h => by
      rw [allNetNonneg, Bool.and_eq_true] at h
      have h0 : (0 : ℚ) ≤ netTimeP (.mk et s p cs) := of_decide_eq_true h.1
      have h2 := gcSumL_le cs h.2
      rw [gcSumP, subtreeNetSum]
      apply add_le_add _ h2
      split
      · exact le_refl _
      · exact h0

/-- Forest version of `gcSumP_le`. -/
theorem gcSumL_le : ∀ (cs : List Node), allNetNonnegL cs = true → gcSumL cs ≤ subtreeNetSumL cs
  | [], _ => by
      rw [gcSumL, subtreeNetSumL]
  | c :: cs, h => by
      rw [allNetNonnegL, Bool.and_eq_true] at h
      rw [gcSumL, subtreeNetSumL]
      exact add_le_add (gcSumP_le c h.1) (gcSumL_le cs h.2)

end

/-- Folding append over the input files collects their `raw_vm_events`
fields in order. -/
theorem merge_foldl {α : Type} : ∀ (l : List (InstrFile α)) (acc : List (List α)),
    l.foldl (fun a d => a ++ [d.raw_vm_events]) acc = acc ++ l.map InstrFile.raw_vm_events
  | [], acc => by simp
  | d :: l, acc => by
      simp only [List.foldl_cons, List.map_cons]
      rw [merge_foldl l (acc ++ [d.raw_vm_events])]
      simp

/-! ## Claim theorems -/

/-- C1: on the docstring scenario input, the JIT series is `[0.017, 0.025]`
as the claim states, but the GC series is `[0.0, 0.001]`, not the claimed
`[0.0, 0.005]`: line 75 sums `collector[-1]`, the LAST collector field
(`cumuCollectCount`), not the `cumuCollectTime` field, so the per-iteration
GC value is the sum of collection counts — the code contradicts its own
docstring (lines 49-52) and the comment at line 71 ("Sum GC times"). -/
theorem hotspot_scenario_sums_counts :
    hsParse scenarioInput =
      .ok [ChartData.mk "GC (secs)" [0, 1/1000] "GC events",
           ChartData.mk "JIT (secs)" [17/1000, 25/1000] "JIT compilation"] ∧
    gcCumulativeTimes scenarioInput = [0, 1] ∧
    ([(0 : ℚ), 1/1000] : List ℚ) ≠ [0, 5/1000] := by
  refine ⟨?_, ?_, ?_⟩
  · norm_num [hsParse, jitCumulativeTimes, gcCumulativeTimes, gcIterationSum,
      secsSeries, diffLoop, scenarioInput]
  · norm_num [gcCumulativeTimes, gcIterationSum, scenarioInput]
  · norm_num

/-- C2: a `jit-`-prefixed event node does NOT complete the parse normally:
the per-iteration accumulator dictionary is created at line 110 as
`⟨'gc': 0⟩` with no `'jit'` key, so the `info['jit'] += net_time` at line
132 raises KeyError — contradicting the docstring of `_parse_node`
("summing time spent in gc and tracing") and the `'jit'` slot prepared in
`iterations` at line 106. -/
theorem pypy_jit_event_keyerror :
    strStartsWith "jit-tracing" "jit-" = true ∧
    pypyNew (some jitEventInput) = .error PyErr.keyError := by
  refine ⟨rfl, ?_⟩
  simp [pypyNew, pypyParse, parseTopNodes, parseChildren, parseNode, jitEventInput,
    show strStartsWith "jit-tracing" "gc-" = false from rfl,
    show strStartsWith "jit-tracing" "jit-" = true from rfl]

/-- C3: with present instr_data whose `raw_vm_events` is empty (N = 0) the
parse does NOT return two empty series: line 79 evaluates
`jit_cumulative_times[0]` unconditionally, raising IndexError, although
the spec requires "must not index series[0]". -/
theorem hotspot_empty_events_indexerror :
    hotSpotNew (some ⟨[]⟩) = .error PyErr.indexError ∧
    hsParse ⟨[]⟩ = .error PyErr.indexError :=
  ⟨rfl, rfl⟩

/-- C4: for N ≥ 1 and non-decreasing cumulative inputs, multiplying each
output sample by 1000 and prefix-summing reconstructs the cumulative input
series exactly, for both the JIT and the GC series (the GC cumulative
series being the one the code actually builds at lines 70-76). -/
theorem hotspot_diff_roundtrip (d : HSInstrData) (hne : d.raw_vm_events ≠ [])
    (hjit : List.Chain' (fun a b => a ≤ b) (jitCumulativeTimes d))
    (hgc : List.Chain' (fun a b => a ≤ b) (gcCumulativeTimes d)) :
    ∃ gcSecs jitSecs,
      hsParse d = .ok [ChartData.mk "GC (secs)" gcSecs "GC events",
                       ChartData.mk "JIT (secs)" jitSecs "JIT compilation"] ∧
      prefixSums (jitSecs.map (fun q => q * 1000)) = jitCumulativeTimes d ∧
      prefixSums (gcSecs.map (fun q => q * 1000)) = gcCumulativeTimes d := by
  cases hre : d.raw_vm_events with
  | nil => exact absurd hre hne
  | cons e es =>
      refine ⟨secsSeries (gcIterationSum e.collectorInfo)
                (es.map fun ev => gcIterationSum ev.collectorInfo),
              secsSeries e.cumuCompTime (es.map HSEvent.cumuCompTime), ?_, ?_, ?_⟩
      · simp [hsParse, jitCumulativeTimes, gcCumulativeTimes, hre]
      · simp [jitCumulativeTimes, hre, secsSeries_roundtrip]
      · simp [gcCumulativeTimes, hre, secsSeries_roundtrip]

/-- Witness for C4 at the one-iteration input `[[0, 17, []]]`. -/
theorem hotspot_diff_roundtrip_witness :
    ∃ gcSecs jitSecs,
      hsParse ⟨[⟨0, 17, []⟩]⟩ =
        .ok [ChartData.mk "GC (secs)" gcSecs "GC events",
             ChartData.mk "JIT (secs)" jitSecs "JIT compilation"] ∧
      prefixSums (jitSecs.map (fun q => q * 1000)) = jitCumulativeTimes ⟨[⟨0, 17, []⟩]⟩ ∧
      prefixSums (gcSecs.map (fun q => q * 1000)) = gcCumulativeTimes ⟨[⟨0, 17, []⟩]⟩ :=
  hotspot_diff_roundtrip ⟨[⟨0, 17, []⟩]⟩ (by simp)
    (by simp [jitCumulativeTimes]) (by simp [gcCumulativeTimes])

/-- C5 counterexample: in the chain `gcChain` every node's net time is
non-negative (4, 2 and 8), yet running `_parse_node` on it adds 14 to the
GC accumulator while the root's gross time is only 10, because line 128
subtracts children's NET (not gross) times, double-counting nested spans. -/
theorem pypy_gc_sum_exceeds_gross :
    allNetNonneg gcChain = true ∧
    parseNode gcChain ⟨some 0, none⟩ = .ok (8, ⟨some 14, none⟩, []) ∧
    grossTimeP gcChain = 10 ∧
    ¬ ((14 : ℚ) - 0 ≤ 10) := by
  refine ⟨?_, ?_, ?_, by norm_num⟩
  · norm_num [gcChain, allNetNonneg, allNetNonnegL, netTimeP, netSumP, grossTimeP,
      Node.stopTime, Node.startTime]
  · simp [gcChain, parseNode, parseChildren,
      show strStartsWith "gc-leaf" "gc-" = true from rfl,
      show strStartsWith "gc-mid" "gc-" = true from rfl,
      show strStartsWith "gc-outer" "gc-" = true from rfl]
    norm_num
  · norm_num [gcChain, grossTimeP, Node.stopTime, Node.startTime]

/-- C5 amended: for an event tree of depth at most one (every child of the
root is a leaf) in which every node's net time is non-negative, a
successful `_parse_node` run grows the GC accumulator by at most the
root's gross time.  (For deeper trees the bound fails, see the
counterexample.) -/
theorem pypy_gc_sum_le_gross_depth1 (et : String) (s p : Option ℚ) (cs : List Node)
    (info : Info) (g0 net : ℚ) (info' : Info) (w : List String)
    (hleaf : ∀ c ∈ cs, c.children = [])
    (hnn : allNetNonneg (Node.mk et s p cs) = true)
    (hg0 : info.gc = some g0)
    (hrun : parseNode (Node.mk et s p cs) info = .ok (net, info', w)) :
    ∃ g, info'.gc = some g ∧ g - g0 ≤ grossTimeP (Node.mk et s p cs) := by
  obtain ⟨-, hgc⟩ := parseNode_ok _ info net info' w hrun
  refine ⟨g0 + gcSumP (Node.mk et s p cs), hgc g0 hg0, ?_⟩
  have h1 := gcSumP_le _ hnn
  have h2 := subtree_depth1 et s p cs hleaf
  have h3 : g0 + gcSumP (Node.mk et s p cs) - g0 = gcSumP (Node.mk et s p cs) := by ring
  rw [h3]
  exact le_trans h1 (le_of_eq h2)

/-- Witness for the amended C5 at a single `gc-` leaf with zero times. -/
theorem pypy_gc_sum_le_gross_depth1_witness :
    ∃ g, (Info.mk (some 0) none).gc = some g ∧
      g - 0 ≤ grossTimeP (Node.mk "gc-a" (some 0) (some 0) []) :=
  pypy_gc_sum_le_gross_depth1 "gc-a" (some 0) (some 0) [] ⟨some 0, none⟩ 0 0
    ⟨some 0, none⟩ []
    (by simp)
    (by simp [allNetNonneg, allNetNonnegL, netTimeP, netSumP, grossTimeP,
      Node.stopTime, Node.startTime])
    rfl
    (by simp [parseNode, parseChildren,
      show strStartsWith "gc-a" "gc-" = true from rfl])

/-- C6: a node whose event type starts with neither `gc-` nor `jit-`
leaves both accumulators untouched, only appends the warning line to the
output, and still returns its net time `(stop - start) - child_time` to
the parent (which adds it into its own child-time budget in the
lines 124-126 loop). -/
theorem pypy_unknown_event_nonfatal (et : String) (s p : ℚ) (cs : List Node)
    (info info1 : Info) (ct : ℚ) (w1 : List String)
    (hgc : strStartsWith et "gc-" = false)
    (hjit : strStartsWith et "jit-" = false)
    (hroot : et ≠ "root")
    (hc : parseChildren cs info = .ok (ct, info1, w1)) :
    parseNode (Node.mk et (some s) (some p) cs) info =
      .ok ((p - s) - ct, info1, w1 ++ [warnMsg et]) := by
  rw [parseNode, if_neg hroot, hc]
  simp [hgc, hjit]

/-- Witness for C6 at an `other-X` leaf. -/
theorem pypy_unknown_event_nonfatal_witness :
    parseNode (Node.mk "other-X" (some 0) (some 5) []) ⟨some 0, none⟩ =
      .ok ((5 - 0) - 0, ⟨some 0, none⟩, [] ++ [warnMsg "other-X"]) :=
  pypy_unknown_event_nonfatal "other-X" 0 5 [] ⟨some 0, none⟩ ⟨some 0, none⟩ 0 []
    rfl rfl (by decide) (by simp [parseChildren])

/-- C7: constructing either parser with absent (falsy) input data leaves
`chart_data` as `None` (not an empty list) and raises nothing. -/
theorem absent_input_absent_chart_data :
    hotSpotNew none = .ok ⟨"Hotspot", none, none⟩ ∧
    pypyNew none = .ok (⟨"PyPy", none, none⟩, []) ∧
    (⟨"Hotspot", none, none⟩ : HotSpotInstrumentParser).chart_data = none ∧
    (⟨"PyPy", none, none⟩ : PyPyInstrumentParser).chart_data = none :=
  ⟨rfl, rfl, rfl, rfl⟩

/-- C8: `merge_instr_data` returns one record set whose `raw_vm_events` is
the ordered list of the inputs' `raw_vm_events` lists — one inner list per
input, no flattening — e.g. `[⟨[a]⟩, ⟨[b, c]⟩] ↦ ⟨[[a], [b, c]]⟩`. -/
theorem merge_concatenates_in_order {α : Type} :
    (∀ file_data : List (InstrFile α),
      merge_instr_data file_data =
        MergedInstrData.mk (file_data.map InstrFile.raw_vm_events)) ∧
    ∀ a b c : α, merge_instr_data [⟨[a]⟩, ⟨[b, c]⟩] =
      MergedInstrData.mk [[a], [b, c]] := by
  constructor
  · intro file_data
    simp [merge_instr_data, merge_foldl]
  · intro a b c
    rfl

/-- C9: whenever the PyPy parse succeeds, the JIT chart series is exactly
`instr_data['jit_times']`, passed through unchanged (line 114); the
tree-derived JIT accumulator plays no role in the output. -/
theorem pypy_jit_series_passthrough (d : PyPyInstrData) (cd : List ChartData)
    (out : List String) (h : pypyParse d = .ok (cd, out)) :
    ∃ gcs, cd = [ChartData.mk "GC" gcs "GC events",
                 ChartData.mk "JIT" d.jit_times "JIT tracing"] := by
  rw [pypyParse] at h
  split at h
  · simp at h
  · rename_i gcs w heq
    simp only [Except.ok.injEq, Prod.mk.injEq] at h
    exact ⟨gcs, h.1.symm⟩

/-- Witness for C9 at the empty event list with `jit_times = [3]`. -/
theorem pypy_jit_series_passthrough_witness :
    ∃ gcs, [ChartData.mk "GC" [] "GC events", ChartData.mk "JIT" [3] "JIT tracing"] =
      [ChartData.mk "GC" gcs "GC events",
       ChartData.mk "JIT" (PyPyInstrData.mk [] [3]).jit_times "JIT tracing"] :=
  pypy_jit_series_passthrough ⟨[], [3]⟩
    [ChartData.mk "GC" [] "GC events", ChartData.mk "JIT" [3] "JIT tracing"] []
    (by simp [pypyParse, parseTopNodes])

/-- C10 counterexample: in `gcChain` the sum of the net times over the
root's subtree is 14 while the root's gross time is 10 — net times do NOT
telescope, because line 128 computes `net = gross - sum(children's NET
times)` instead of subtracting gross times, double-counting the
grandchild. -/
theorem pypy_net_sum_not_gross :
    netTimeP gcChain = 8 ∧ subtreeNetSum gcChain = 14 ∧
    grossTimeP gcChain = 10 ∧ subtreeNetSum gcChain ≠ grossTimeP gcChain := by
  refine ⟨?_, ?_, ?_, ?_⟩
  · norm_num [gcChain, netTimeP, netSumP, grossTimeP, Node.stopTime, Node.startTime]
  · norm_num [gcChain, subtreeNetSum, subtreeNetSumL, netTimeP, netSumP, grossTimeP,
      Node.stopTime, Node.startTime]
  · norm_num [gcChain, grossTimeP, Node.stopTime, Node.startTime]
  · norm_num [gcChain, subtreeNetSum, subtreeNetSumL, netTimeP, netSumP, grossTimeP,
      Node.stopTime, Node.startTime]

/-- C10 amended: the telescoping identity holds exactly for subtrees of
depth at most one — when every child of a node is a leaf, the sum of the
net times over the node's subtree equals the node's gross time. -/
theorem pypy_net_sum_eq_gross_depth1 (et : String) (s p : Option ℚ) (cs : List Node)
    (hleaf : ∀ c ∈ cs, c.children = []) :
    subtreeNetSum (Node.mk et s p cs) = grossTimeP (Node.mk et s p cs) :=
  subtree_depth1 et s p cs hleaf

/-- Witness for the amended C10 at a childless `gc-x` node spanning 0..7. -/
theorem pypy_net_sum_eq_gross_depth1_witness :
    subtreeNetSum (Node.mk "gc-x" (some 0) (some 7) []) =
      grossTimeP (Node.mk "gc-x" (some 0) (some 7) []) :=
  pypy_net_sum_eq_gross_depth1 "gc-x" (some 0) (some 7) [] (by simp)

end VMInstruments
